import Mathlib

/-!
# Signed-URL issuance for the cards bucket: a shallow embedding

Verification development for `lambdas/manage-s3-contents` (`service.go`,
`manage-s3-contents.go`, `clients.go`).

Conventions of the embedding.

* A Go `string` is a sequence of bytes: `Str := List UInt8`.  String literals of the
  source are written `utf8 "..."`.
* A Go function returning `(T, error)` returns a pair `T × Option GoError`
  (`none` is the `nil` error).
* Pointers, interfaces and maps that may be `nil` are `Option`s.  Calling a method on a
  `nil` interface or on a `nil` `*log.Logger`, and dereferencing a `nil` pointer, is a
  run-time panic: `Outcome.panicked`.
* Calls to collaborators (secret store, signer, metadata table, object store, logger) are
  recorded, in order, in `World.calls`.
-/

namespace ManageS3Contents

/-! ## Strings -/

/-- A Go `string`: an immutable sequence of bytes. -/
abbrev Str := List UInt8

/-- The bytes of a source literal (Go source text is UTF-8). -/
def utf8 (s : String) : Str := s.data.flatMap String.utf8EncodeChar

/-- The byte of an ASCII character literal such as `'a'`. -/
def ch (c : Char) : UInt8 := c.toNat.toUInt8

/-- A Go `error` value, identified by its message. -/
structure GoError where
  msg : String
  deriving DecidableEq, Repr

/-! ## `net/url`: `PathEscape` (Go standard library)

`url.PathEscape(s)` is `escape(s, encodePathSegment)`.  The two functions below are
`shouldEscape` and `escape` of `net/url`, specialised to the mode `encodePathSegment`,
the only mode the program uses. -/

/-- The constant `upperhex` of `net/url`. -/
def upperhex : Str := utf8 "0123456789ABCDEF"

/-- Function `shouldEscape(c, encodePathSegment)` of `net/url`. -/
def shouldEscape (c : UInt8) : Bool :=
  -- §2.3 Unreserved characters (alphanum)
  if (ch 'a' ≤ c && c ≤ ch 'z') || (ch 'A' ≤ c && c ≤ ch 'Z') || (ch '0' ≤ c && c ≤ ch '9') then
    false
  -- §2.3 Unreserved characters (mark)
  else if c = ch '-' ∨ c = ch '_' ∨ c = ch '.' ∨ c = ch '~' then
    false
  -- §2.2 Reserved characters (reserved); in a path segment the RFC allows : @ & = + $
  -- but saves / ; , for assigning meaning to individual path segments.
  else if c = ch '$' ∨ c = ch '&' ∨ c = ch '+' ∨ c = ch ',' ∨ c = ch '/' ∨ c = ch ':'
      ∨ c = ch ';' ∨ c = ch '=' ∨ c = ch '?' ∨ c = ch '@' then
    c = ch '/' || c = ch ';' || c = ch ',' || c = ch '?'
  -- Everything else must be escaped.
  else
    true

/-- First loop of `escape`: the number of bytes that need a `%XX` escape. -/
def hexCount : Str → Nat
  | [] => 0
  | c :: s => if shouldEscape c then hexCount s + 1 else hexCount s

/-- Second loop of `escape`: `t` is the output buffer filled so far. -/
def escapeLoop : Str → Str → Str
  | [], t => t
  | c :: s, t =>
    if shouldEscape c then
      escapeLoop s (t ++ [ch '%', upperhex.getD (c.toNat / 16) 0, upperhex.getD (c.toNat % 16) 0])
    else
      escapeLoop s (t ++ [c])

/-- Function `escape(s, encodePathSegment)` of `net/url`. -/
def escape (s : Str) : Str :=
  if hexCount s = 0 then s else escapeLoop s []

/-- Function `url.PathEscape`. -/
def PathEscape (s : Str) : Str := escape s

/-! ## `GenerateS3URL` (`service.go`) -/

/-- GenerateS3URL generates an S3 URL for a given bucket and key. -/
def GenerateS3URL (bucket key : Str) : Str × Option GoError :=
  if bucket = [] ∨ key = [] then
    ([], some ⟨"bucket and key must be provided"⟩)
  else
    -- Encode the key to make it URL-safe
    let encodedKey := PathEscape key
    -- Format the S3 URL
    let s3URL := utf8 "https://" ++ bucket ++ utf8 ".s3.amazonaws.com/" ++ encodedKey
    (s3URL, none)

/-! ## Time (`time` package) -/

/-- Go `time.Duration`: a count of nanoseconds. -/
abbrev Duration := Int

def Nanosecond : Duration := 1
def Microsecond : Duration := 1000 * Nanosecond
def Millisecond : Duration := 1000 * Microsecond
def Second : Duration := 1000 * Millisecond
def Minute : Duration := 60 * Second
def Hour : Duration := 60 * Minute

/-- Go `time.Time`: an instant, as nanoseconds since the Unix epoch. -/
structure Time where
  unixNano : Int
  deriving DecidableEq, Repr

/-- Method `Time.Add`. -/
def Time.Add (t : Time) (d : Duration) : Time := ⟨t.unixNano + d⟩

/-! ## Collaborators (`clients.go`) and their data -/

/-- A `context.Context` value. -/
structure Context where
  id : Nat
  deriving DecidableEq, Repr

/-- A `*log.Logger` that is not nil. -/
structure Logger where
  id : Nat
  deriving DecidableEq, Repr

/-- An `*rsa.PrivateKey` that is not nil. -/
structure RSAPrivateKey where
  N : Nat
  E : Nat
  D : Nat
  deriving DecidableEq, Repr

/-- Struct `secretsmanager.GetSecretValueInput` (the field the program sets). -/
structure GetSecretValueInput where
  SecretId : Option Str

/-- Struct `secretsmanager.GetSecretValueOutput` (the field the program reads). -/
structure GetSecretValueOutput where
  SecretString : Option Str

/-- Interface `SecretManagerClient`. -/
structure SecretManagerClient where
  GetSecretValue : Option Context → GetSecretValueInput →
    Option GetSecretValueOutput × Option GoError

/-- Interface `CloudfrontClient`. -/
structure CloudfrontClient where
  Sign : Str → Time → Str × Option GoError

/-- Struct `s3.PutObjectInput` (the fields the program sets). -/
structure PutObjectInput where
  Bucket : Option Str
  Key : Option Str
  Body : Str
  ContentType : Option Str

/-- Interface `S3Client` (the method the program calls). -/
structure S3Client where
  PutObject : Option Context → PutObjectInput → Option GoError

/-- The members of `dynamodb_types.AttributeValue` that occur: a string and a boolean. -/
inductive AttributeValue where
  | S (Value : Str)
  | BOOL (Value : Bool)
  deriving DecidableEq, Repr

/-- A `map[string]dynamodb_types.AttributeValue`; the nil map is `emptyItem`. -/
abbrev Item := Str → Option AttributeValue

def emptyItem : Item := fun _ => none

/-- The map `m` with `m[name] = v`. -/
def Item.set (m : Item) (name : Str) (v : AttributeValue) : Item :=
  fun k => if k = name then some v else m k

/-- The metadata table: a map from `CardId` to the item stored under it. -/
abbrev Table := Str → Option Item

/-- The tables of the metadata store, by table name. -/
abbrev Db := Str → Table

/-- Struct `dynamodb.GetItemInput` (the fields the program sets). -/
structure GetItemInput where
  TableName : Option Str
  Key : Item
  ConsistentRead : Option Bool

/-- Struct `dynamodb.GetItemOutput` (the field the program reads). -/
structure GetItemOutput where
  Item : Item

/-- An update expression `SET a₁ = :v₁, a₂ = :v₂, ...`, as its list of assignments. -/
inductive UpdateExpression where
  | SET (assignments : List (Str × Str))

/-- Type `dynamodb_types.ReturnValue`. -/
inductive ReturnValue where
  | ReturnValueNone
  | ReturnValueAllOld
  | ReturnValueUpdatedOld
  | ReturnValueAllNew
  | ReturnValueUpdatedNew
  deriving DecidableEq, Repr

/-- Struct `dynamodb.UpdateItemInput` (the fields the program sets). -/
structure UpdateItemInput where
  TableName : Option Str
  Key : Item
  UpdateExpression : Option UpdateExpression
  ExpressionAttributeValues : Item
  ReturnValues : ReturnValue

/-- Interface `DynamodbClient` (the methods the program calls); the store itself is the
`Db` the methods read and update. -/
structure DynamodbClient where
  GetItem : Db → Option Context → GetItemInput → Option GetItemOutput × Option GoError
  UpdateItem : Db → Option Context → UpdateItemInput → Db × Option GoError

/-! ## The service (`service.go`) -/

structure CardsTable where
  CardId : Str            -- Unique CardId
  CardName : Str          -- Custom name of the card that is entered by the company
  CardS3Location : Str    -- S3 Location of the Card
  deriving DecidableEq, Repr

/-- The `dynamodbav` struct tags of `CardsTable`: the attribute each field is read from. -/
def dynamodbavCardId : Str := utf8 "CardId"
def dynamodbavCardName : Str := utf8 "CardName"
def dynamodbavCardS3Location : Str := utf8 "CardType"

structure CardsTableTemplateService where
  ctx : Option Context
  logger : Option Logger
  dynamodbClient : Option DynamodbClient
  s3ObjectClient : Option S3Client
  cloudfrontClient : Option CloudfrontClient
  secretMgrClient : Option SecretManagerClient
  CompanyCardTemplateTable : Str
  BucketName : Str
  publicKeyId : Str
  privateKey : Option RSAPrivateKey

/-- The composite literal of `main`: only the table name and the bucket name are set,
every other field has its zero value. -/
def newService (table bucket : Str) : CardsTableTemplateService :=
  ⟨none, none, none, none, none, none, table, bucket, [], none⟩

/-! ## Execution -/

/-- A call made to a collaborator. -/
inductive Call where
  | GetSecretValue (ctx : Option Context) (input : GetSecretValueInput)
  | Sign (url : Str) (expires : Time)
  | GetItem (ctx : Option Context) (input : GetItemInput)
  | UpdateItem (ctx : Option Context) (input : UpdateItemInput)
  | Printf (logger : Logger) (format : String)

/-- What a method runs against: the clock, the metadata store and the calls made so far. -/
structure World where
  now : Time
  db : Db
  calls : List Call

/-- How a call ends: it returns a value, or the goroutine panics. -/
inductive Outcome (α : Type) where
  | returned (a : α)
  | panicked
  deriving DecidableEq, Repr

/-- The `(url, expires)` arguments of the calls made to the signer, in order. -/
def signerCalls : List Call → List (Str × Time)
  | [] => []
  | Call.Sign url expires :: cs => (url, expires) :: signerCalls cs
  | _ :: cs => signerCalls cs

/-- The inputs of the calls made to `GetSecretValue`, in order. -/
def secretCalls : List Call → List GetSecretValueInput
  | [] => []
  | Call.GetSecretValue _ input :: cs => input :: secretCalls cs
  | _ :: cs => secretCalls cs

def World.record (w : World) (c : Call) : World :=
  ⟨w.now, w.db, w.calls ++ [c]⟩

/-- Method `(*log.Logger).Printf`: a nil receiver panics. -/
def Printf (logger : Option Logger) (format : String) (w : World) : Outcome Unit × World :=
  match logger with
  | none => (Outcome.panicked, w)
  | some l => (Outcome.returned (), w.record (Call.Printf l format))

/-! ## Standard-library and SDK functions taken as parameters -/

/-- A `*pem.Block` that is not nil. -/
structure PemBlock where
  blockType : Str
  Bytes : Str

structure GETReqResponse where
  CardId : Str
  CardName : Str
  CardTemplateUrl : Str
  deriving DecidableEq, Repr

/-- Library functions whose bodies are outside the repository.  `x509.ParsePKCS1PrivateKey`
returns a non-nil key exactly when it returns a nil error, hence `Except`. -/
structure Lib where
  TrimSpace : Str → Str                                             -- strings.TrimSpace
  pemDecode : Str → Option PemBlock                                 -- pem.Decode (first result)
  ParsePKCS1PrivateKey : Str → Except GoError RSAPrivateKey         -- x509.ParsePKCS1PrivateKey
  NewURLSigner : Str → Option RSAPrivateKey → CloudfrontClient      -- sign.NewURLSigner
  jsonMarshal : GETReqResponse → Except GoError Str                 -- json.Marshal

/-! ## Key material -/

def parsePrivateKey (lib : Lib) (pemPrivateKey : Str) : Option RSAPrivateKey × Option GoError :=
  -- Trim any leading/trailing whitespaces
  let pemPrivateKey := lib.TrimSpace pemPrivateKey
  -- Parse the PEM block containing the private key
  match lib.pemDecode pemPrivateKey with
  | none => (none, some ⟨"failed to parse PEM block containing private key"⟩)
  | some block =>
    -- Parse the private key from the PEM block
    match lib.ParsePKCS1PrivateKey block.Bytes with
    | Except.error err => (none, some err)
    | Except.ok privateKey => (some privateKey, none)

def AssignPrivatePublicKey (lib : Lib) (svc : CardsTableTemplateService)
    (secretKeyArn publicKeyId : Str) (w : World) :
    Outcome (Option GoError) × CardsTableTemplateService × World :=
  if secretKeyArn = [] then
    (Outcome.returned (some ⟨"[ERROR] Secret ARN cannot be empty!"⟩), svc, w)
  else
    let input : GetSecretValueInput := ⟨some secretKeyArn⟩
    match svc.secretMgrClient with
    | none => (Outcome.panicked, svc, w)
    | some client =>
      let w := w.record (Call.GetSecretValue svc.ctx input)
      match client.GetSecretValue svc.ctx input with
      | (_, some err) =>
        match Printf svc.logger
            "[ERROR] Failed to retrieve data from the secret manager. Error : %v" w with
        | (Outcome.panicked, w) => (Outcome.panicked, svc, w)
        | (Outcome.returned _, w) => (Outcome.returned (some err), svc, w)
      | (none, none) => (Outcome.panicked, svc, w)
      | (some output, none) =>
        match output.SecretString with
        | none => (Outcome.panicked, svc, w)
        | some privateKeyString =>
          if privateKeyString = [] then
            match Printf svc.logger "[ERROR] PrivateKey Value is empty : %v " w with
            | (Outcome.panicked, w) => (Outcome.panicked, svc, w)
            | (Outcome.returned _, w) =>
              (Outcome.returned (some ⟨"[ERROR] PrivateKey Value is empty :  "⟩), svc, w)
          else
            -- Parse Private Key
            match parsePrivateKey lib privateKeyString with
            | (_, some err) => (Outcome.returned (some err), svc, w)
            | (parsedPrivateKey, none) =>
              -- assign Private Key in Service
              let svc := { svc with privateKey := parsedPrivateKey }
              match Printf svc.logger "Assign Private Key Completed" w with
              | (Outcome.panicked, w) => (Outcome.panicked, svc, w)
              | (Outcome.returned _, w) =>
                -- assign Public Key ID of the CloudFront
                let svc := { svc with publicKeyId := publicKeyId }
                match Printf svc.logger "Assign Public Key Completed" w with
                | (Outcome.panicked, w) => (Outcome.panicked, svc, w)
                | (Outcome.returned _, w) => (Outcome.returned none, svc, w)

def AssignCardsService (lib : Lib) (svc : CardsTableTemplateService)
    (ctx : Option Context) (logger : Option Logger)
    (ddbClient : Option DynamodbClient) (s3Client : Option S3Client)
    (secretMgrClient : Option SecretManagerClient)
    (PKsSecretKeyArn publicKeyId : Str) (w : World) :
    Outcome (Option GoError) × CardsTableTemplateService × World :=
  match AssignPrivatePublicKey lib svc PKsSecretKeyArn publicKeyId w with
  | (Outcome.panicked, svc, w) => (Outcome.panicked, svc, w)
  | (Outcome.returned (some err), svc, w) => (Outcome.returned (some err), svc, w)
  | (Outcome.returned none, svc, w) =>
    let signerClient := lib.NewURLSigner svc.publicKeyId svc.privateKey
    -- Assign Clients
    let svc := { svc with
      ctx := ctx
      dynamodbClient := ddbClient
      logger := logger
      s3ObjectClient := s3Client
      cloudfrontClient := some signerClient
      secretMgrClient := secretMgrClient }
    (Outcome.returned none, svc, w)

/-! ## Metadata -/

/-- What the SDK decoder does with the attribute found (or not) for a field of Go type
`string`: an absent attribute leaves the zero value, an `S` member is copied, a `BOOL`
member is a type error. -/
def decodeString (av : Option AttributeValue) : Except GoError Str :=
  match av with
  | none => Except.ok []
  | some (AttributeValue.S v) => Except.ok v
  | some (AttributeValue.BOOL _) =>
    Except.error ⟨"unmarshal failed, cannot unmarshal bool into Go value type string"⟩

/-- Function `dynamodb_attributevalue.UnmarshalMap` at the type `CardsTable`: each field is
decoded from the attribute named by its `dynamodbav` tag.  Attributes of the item that no
tag names are ignored.  (The decoder falls back on a case-insensitive comparison with the
tags when an attribute name equals none of them; items whose attribute names differ from a
tag only by case are outside this model.) -/
def UnmarshalMap (m : Item) : Except GoError CardsTable :=
  match decodeString (m dynamodbavCardId) with
  | Except.error err => Except.error err
  | Except.ok cardId =>
    match decodeString (m dynamodbavCardName) with
    | Except.error err => Except.error err
    | Except.ok cardName =>
      match decodeString (m dynamodbavCardS3Location) with
      | Except.error err => Except.error err
      | Except.ok cardS3Location => Except.ok ⟨cardId, cardName, cardS3Location⟩

def PutMetaData (svc : CardsTableTemplateService) (data : CardsTable) (w : World) :
    Outcome (Option GoError) × World :=
  let UpdateItemInput : UpdateItemInput :=
    { TableName := some svc.CompanyCardTemplateTable
      Key := emptyItem.set (utf8 "CardId") (AttributeValue.S data.CardId)
      UpdateExpression := some (UpdateExpression.SET
        [(utf8 "CardName", utf8 ":CardName"), (utf8 "CardS3Location", utf8 ":CardS3Location")])
      ExpressionAttributeValues :=
        (emptyItem.set (utf8 ":CardName") (AttributeValue.S data.CardName)).set
          (utf8 ":CardS3Location") (AttributeValue.S data.CardS3Location)
      ReturnValues := ReturnValue.ReturnValueNone }
  match svc.dynamodbClient with
  | none => (Outcome.panicked, w)
  | some client =>
    let w := w.record (Call.UpdateItem svc.ctx UpdateItemInput)
    match client.UpdateItem w.db svc.ctx UpdateItemInput with
    | (db, some err) =>
      match Printf svc.logger "Failed to Update the Company Table: %v\n" ⟨w.now, db, w.calls⟩ with
      | (Outcome.panicked, w) => (Outcome.panicked, w)
      | (Outcome.returned _, w) => (Outcome.returned (some err), w)
    | (db, none) =>
      match Printf svc.logger "SUCCESS : Updated MetaData table with the new Card information"
          ⟨w.now, db, w.calls⟩ with
      | (Outcome.panicked, w) => (Outcome.panicked, w)
      | (Outcome.returned _, w) => (Outcome.returned none, w)

def GetMetaData (svc : CardsTableTemplateService) (CardId : Str) (w : World) :
    Outcome (CardsTable × Option GoError) × World :=
  if CardId = [] then
    (Outcome.returned (⟨[], [], []⟩,
      some ⟨"CardId cannot be empty for GetMeta Data for single Card"⟩), w)
  else
    let getItemInput : GetItemInput :=
      { TableName := some svc.CompanyCardTemplateTable
        Key := emptyItem.set (utf8 "CardId") (AttributeValue.S CardId)
        ConsistentRead := some true }
    match svc.dynamodbClient with
    | none => (Outcome.panicked, w)
    | some client =>
      let w := w.record (Call.GetItem svc.ctx getItemInput)
      match client.GetItem w.db svc.ctx getItemInput with
      | (_, some err) => (Outcome.returned (⟨[], [], []⟩, some err), w)
      | (none, none) => (Outcome.panicked, w)
      | (some output, none) =>
        match UnmarshalMap output.Item with
        | Except.error err =>
          match Printf svc.logger "Unmarshal on the CardMetaData Failed :%v" w with
          | (Outcome.panicked, w) => (Outcome.panicked, w)
          | (Outcome.returned _, w) => (Outcome.returned (⟨[], [], []⟩, some err), w)
        | Except.ok CardMetaData => (Outcome.returned (CardMetaData, none), w)

/-! ## Issuance -/

/-- Gets Presigned URL for the Card present in the CloudFront Location. -/
def GetPreSignedURL (svc : CardsTableTemplateService) (objectKey : Str) (w : World) :
    Outcome (Str × Option GoError) × World :=
  match GenerateS3URL svc.BucketName objectKey with
  | (_, some err) => (Outcome.returned ([], some err), w)
  | (s3URL, none) =>
    match svc.cloudfrontClient with
    | none => (Outcome.panicked, w)
    | some signer =>
      let expires := w.now.Add (1 * Hour)
      let w := w.record (Call.Sign s3URL expires)
      match signer.Sign s3URL expires with
      | (_, some err) =>
        match Printf svc.logger "Unable to sign the request" w with
        | (Outcome.panicked, w) => (Outcome.panicked, w)
        | (Outcome.returned _, w) => (Outcome.returned ([], some err), w)
      | (singedURL, none) => (Outcome.returned (singedURL, none), w)

/-! ## The request handler (`manage-s3-contents.go`) -/

def RESP_HEADERS : List (Str × Str) :=
  [ (utf8 "Access-Control-Allow-Origin", utf8 "*"),
    (utf8 "Access-Control-Allow-Methods", utf8 "*"),
    (utf8 "Access-Control-Allow-Headers", utf8 "card-name,X-Amz-Date,X-Api-Key,X-Amz-Security-Token,X-Requested-With,X-Auth-Token,Referer,User-Agent,Origin,Content-Type,Authorization,Accept,Access-Control-Allow-Methods,Access-Control-Allow-Origin,Access-Control-Allow-Headers") ]

structure Service where
  ctx : Option Context
  logger : Option Logger
  SVC : CardsTableTemplateService

/-- Struct `events.APIGatewayProxyRequest` (the fields the program reads). -/
structure APIGatewayProxyRequest where
  HTTPMethod : Str
  Headers : Str → Option Str
  Body : Str

/-- Struct `events.APIGatewayProxyResponse` (the fields the program sets); the nil header
map is the empty list. -/
structure APIGatewayProxyResponse where
  StatusCode : Int
  Headers : List (Str × Str)
  Body : Str
  deriving DecidableEq, Repr

/-- Indexing a `map[string]string`: an absent key gives the empty string. -/
def header (request : APIGatewayProxyRequest) (name : Str) : Str :=
  (request.Headers name).getD []

def handleGetMethod (lib : Lib) (svc : Service) (request : APIGatewayProxyRequest) (w : World) :
    Outcome (APIGatewayProxyResponse × Option GoError) × World :=
  -- 1. Get Req Headers
  let cardId := header request (utf8 "card-id")
  -- 2. Get the Card from the card template ddb
  match GetMetaData svc.SVC cardId w with
  | (Outcome.panicked, w) => (Outcome.panicked, w)
  | (Outcome.returned (_, some err), w) =>
    (Outcome.returned (⟨500, RESP_HEADERS, []⟩, some err), w)
  | (Outcome.returned (cardMetaData, none), w) =>
    -- 3. Get Cards Presign URL
    match GetPreSignedURL svc.SVC cardMetaData.CardId w with
    | (Outcome.panicked, w) => (Outcome.panicked, w)
    | (Outcome.returned (_, some err), w) =>
      (Outcome.returned (⟨500, RESP_HEADERS, []⟩, some err), w)
    | (Outcome.returned (preSignURL, none), w) =>
      if preSignURL = [] then
        (Outcome.returned (⟨500, RESP_HEADERS, []⟩, none), w)
      else
        let getReqRes : GETReqResponse :=
          { CardId := cardMetaData.CardId
            CardName := cardMetaData.CardName
            CardTemplateUrl := preSignURL }
        -- Format the response
        match lib.jsonMarshal getReqRes with
        | Except.error err => (Outcome.returned (⟨500, RESP_HEADERS, []⟩, some err), w)
        | Except.ok respBytes => (Outcome.returned (⟨200, RESP_HEADERS, respBytes⟩, none), w)

/-! ## An in-memory metadata store -/

/-- The effect of `SET a₁ = :v₁, ...` on an item: each attribute gets the value bound to
its placeholder; an unbound placeholder rejects the update. -/
def applySet (values : Item) : List (Str × Str) → Item → Option Item
  | [], item => some item
  | (attr, placeholder) :: rest, item =>
    match values placeholder with
    | none => none
    | some v => applySet values rest (item.set attr v)

/-- A metadata store whose tables are maps from `CardId` to an item.  `GetItem` returns the
item stored under the key, or the empty item.  `UpdateItem` with a `SET` expression
creates the item from its key when it does not exist, and assigns the named attributes. -/
def tableClient : DynamodbClient where
  GetItem db _ input :=
    match input.TableName, input.Key (utf8 "CardId") with
    | some table, some (AttributeValue.S cardId) =>
      if cardId = [] then (none, some ⟨"ValidationException"⟩)
      else (some ⟨(db table cardId).getD emptyItem⟩, none)
    | _, _ => (none, some ⟨"ValidationException"⟩)
  UpdateItem db _ input :=
    match input.TableName, input.Key (utf8 "CardId"), input.UpdateExpression with
    | some table, some (AttributeValue.S cardId), some (UpdateExpression.SET assignments) =>
      if cardId = [] then (db, some ⟨"ValidationException"⟩)
      else
        match applySet input.ExpressionAttributeValues assignments
            ((db table cardId).getD input.Key) with
        | none => (db, some ⟨"ValidationException"⟩)
        | some item =>
          (fun t => if t = table then fun k => if k = cardId then some item else db t k
                    else db t,
           none)
    | _, _, _ => (db, some ⟨"ValidationException"⟩)

/-! ## Specification-side vocabulary and concrete inputs -/

/-- An ASCII letter or digit. -/
def isAlnum (c : UInt8) : Prop :=
  (ch 'a' ≤ c ∧ c ≤ ch 'z') ∨ (ch 'A' ≤ c ∧ c ≤ ch 'Z') ∨ (ch '0' ≤ c ∧ c ≤ ch '9')

/-- The upper-case hexadecimal digit of `n < 16`. -/
def hexDigit (n : Nat) : UInt8 :=
  if n < 10 then ch '0' + n.toUInt8 else ch 'A' + (n - 10).toUInt8

/-- The percent-escape `%XX` of a byte. -/
def percentEscape (c : UInt8) : Str :=
  [ch '%', hexDigit (c.toNat / 16), hexDigit (c.toNat % 16)]

/-- What `escape` writes for one byte. -/
def escapeByte (c : UInt8) : Str :=
  if shouldEscape c then percentEscape c else [c]

/-- The world used in the concrete evaluations: the clock reads `t`, no table holds an
item, nothing has been called. -/
def emptyWorld (t : Int) : World := ⟨⟨t⟩, fun _ _ => none, []⟩

/-- The URL that `GetPreSignedURL` hands to the signer for bucket `b` and key `k`. -/
def resourceURL (b k : Str) : Str :=
  utf8 "https://" ++ b ++ utf8 ".s3.amazonaws.com/" ++ PathEscape k

/-- The instant 3600 seconds after the clock reading of `w`. -/
def oneHourFrom (w : World) : Time := ⟨w.now.unixNano + 3600 * 1000000000⟩

/-- A library instance for the concrete evaluations: no trimming, the only PEM text is
`KEY`, whose block parses to a fixed key; the signer appends the key-pair id. -/
def exampleLib : Lib where
  TrimSpace s := s
  pemDecode s := if s = utf8 "KEY" then some ⟨utf8 "RSA PRIVATE KEY", utf8 "DER"⟩ else none
  ParsePKCS1PrivateKey b :=
    if b = utf8 "DER" then Except.ok ⟨3233, 17, 2753⟩ else Except.error ⟨"x509: malformed key"⟩
  NewURLSigner keyID _ := ⟨fun url _ => (url ++ utf8 "?Key-Pair-Id=" ++ keyID, none)⟩
  jsonMarshal r := Except.ok (r.CardId ++ r.CardName ++ r.CardTemplateUrl)

/-- A signer whose `Sign` always fails. -/
def failingSigner : CloudfrontClient := ⟨fun _ _ => ([], some ⟨"sign: failed"⟩)⟩

/-- A secret store whose `GetSecretValue` always fails. -/
def failingSecretClient : SecretManagerClient :=
  ⟨fun _ _ => (none, some ⟨"secretsmanager: unavailable"⟩)⟩

/-- A secret store that holds the key text `KEY` under every identifier. -/
def goodSecretClient : SecretManagerClient :=
  ⟨fun _ _ => (some ⟨some (utf8 "KEY")⟩, none)⟩

def exampleS3Client : S3Client := ⟨fun _ _ => none⟩

/-- The service of `main` before `AssignCardsService`. -/
def freshService : CardsTableTemplateService := newService (utf8 "cards") (utf8 "cards-bucket")

/-- A service that holds only a logger and a signer that fails. -/
def signingService : CardsTableTemplateService :=
  ⟨none, some ⟨0⟩, none, none, some failingSigner, none,
    utf8 "cards", utf8 "cards-bucket", [], none⟩

/-- A service that holds a signer that fails, and no logger. -/
def unloggedSigningService : CardsTableTemplateService :=
  ⟨none, none, none, none, some failingSigner, none,
    utf8 "cards", utf8 "cards-bucket", [], none⟩

/-- A service that already holds a logger and a secret store that fails. -/
def failingSecretService : CardsTableTemplateService :=
  ⟨none, some ⟨0⟩, none, none, none, some failingSecretClient,
    utf8 "cards", utf8 "cards-bucket", [], none⟩

/-- A service that already holds a secret store that fails, and no logger. -/
def unloggedSecretService : CardsTableTemplateService :=
  ⟨none, none, none, none, none, some failingSecretClient,
    utf8 "cards", utf8 "cards-bucket", [], none⟩

/-- A service that already holds a logger and the secret store with the key text. -/
def presetService : CardsTableTemplateService :=
  ⟨none, some ⟨0⟩, none, none, none, some goodSecretClient,
    utf8 "cards", utf8 "cards-bucket", [], none⟩

/-- A service that holds a logger and the in-memory metadata store. -/
def metadataService : CardsTableTemplateService :=
  ⟨none, some ⟨0⟩, some tableClient, none, none, none,
    utf8 "cards", utf8 "cards-bucket", [], none⟩

/-- The record `handlePostMethod` would store for the object `card-1.jpeg`. -/
def exampleCard : CardsTable := ⟨utf8 "card-1.jpeg", utf8 "Birthday", utf8 "card-1.jpeg"⟩

/-- The GET handler's service around `metadataService`. -/
def exampleHandler : Service := ⟨none, some ⟨0⟩, metadataService⟩

/-- A GET request whose only header is `card-id`, with the value `id`. -/
def getRequest (id : Str) : APIGatewayProxyRequest :=
  ⟨utf8 "GET", fun name => if name = utf8 "card-id" then some id else none, []⟩

/-- A GET request without headers. -/
def bareRequest : APIGatewayProxyRequest := ⟨utf8 "GET", fun _ => none, []⟩

/-- The premise `GetItem succeeds with an empty item` for the key `cardId`. -/
def NoItemFor (svc : CardsTableTemplateService) (cardId : Str) (w : World) : Prop :=
  ∃ client out, svc.dynamodbClient = some client
    ∧ client.GetItem w.db svc.ctx
        ⟨some svc.CompanyCardTemplateTable,
          emptyItem.set (utf8 "CardId") (AttributeValue.S cardId), some true⟩ = (some out, none)
    ∧ out.Item = emptyItem

/-- The premise `GetSecretValue returns an error` for the identifier `arn`. -/
def GetSecretValueFails (svc : CardsTableTemplateService) (arn : Str) : Prop :=
  arn ≠ [] ∧ ∃ client out err, svc.secretMgrClient = some client
    ∧ client.GetSecretValue svc.ctx ⟨some arn⟩ = (out, some err)

/-- The premise `the retrieved secret string is empty`. -/
def SecretIsEmpty (svc : CardsTableTemplateService) (arn : Str) : Prop :=
  arn ≠ [] ∧ ∃ client out, svc.secretMgrClient = some client
    ∧ client.GetSecretValue svc.ctx ⟨some arn⟩ = (some out, none)
    ∧ out.SecretString = some []

/-- The premise `parsePrivateKey rejects the retrieved secret string`. -/
def KeyIsRejected (lib : Lib) (svc : CardsTableTemplateService) (arn : Str) : Prop :=
  arn ≠ [] ∧ ∃ client out secret err, svc.secretMgrClient = some client
    ∧ client.GetSecretValue svc.ctx ⟨some arn⟩ = (some out, none)
    ∧ out.SecretString = some secret ∧ secret ≠ []
    ∧ parsePrivateKey lib secret = (none, some err)

/-! ## Escaping -/

theorem upperhex_getD (n : Nat) (h : n < 16) : upperhex.getD n 0 = hexDigit n := by
  interval_cases n <;> decide

theorem toNat_lt_256 (c : UInt8) : c.toNat < 256 := c.val.isLt

theorem escapeLoop_eq (s t : Str) : escapeLoop s t = t ++ s.flatMap escapeByte := by
  induction s generalizing t with
  | nil => simp [escapeLoop]
  | cons c s ih =>
    have h1 : c.toNat / 16 < 16 := by have := toNat_lt_256 c; omega
    have h2 : c.toNat % 16 < 16 := Nat.mod_lt _ (by decide)
    by_cases hc : shouldEscape c = true
    · simp only [escapeLoop, hc, if_true]
      rw [ih, upperhex_getD _ h1, upperhex_getD _ h2]
      simp [escapeByte, hc, percentEscape]
    · simp [escapeLoop, hc, ih, escapeByte]

theorem flatMap_escapeByte_of_hexCount (s : Str) (h : hexCount s = 0) :
    s.flatMap escapeByte = s := by
  induction s with
  | nil => rfl
  | cons c s ih =>
    by_cases hc : shouldEscape c = true
    · simp [hexCount, hc] at h
    · simp only [hexCount, hc] at h
      simp [escapeByte, hc, ih h]

theorem PathEscape_eq (s : Str) : PathEscape s = s.flatMap escapeByte := by
  unfold PathEscape escape
  split
  · next h => exact (flatMap_escapeByte_of_hexCount s h).symm
  · simp [escapeLoop_eq]

theorem shouldEscape_of_isAlnum (c : UInt8) (h : isAlnum c) : shouldEscape c = false := by
  unfold isAlnum at h
  unfold shouldEscape
  rw [if_pos]
  rcases h with h | h | h <;> simp [h.1, h.2]

theorem GenerateS3URL_ok (bucket key : Str) (hb : bucket ≠ []) (hk : key ≠ []) :
    GenerateS3URL bucket key
      = (utf8 "https://" ++ bucket ++ utf8 ".s3.amazonaws.com/" ++ PathEscape key, none) := by
  simp [GenerateS3URL, hb, hk]

/-! ## C1 -/

/-- C1, as the code has it: for every non-empty bucket and key, the URL returned by
`GenerateS3URL` is `https://<bucket>.s3.amazonaws.com/` followed by the key in which each
of `/ ? # [ ] ! ' ( ) * , ;` and the space is replaced by its percent-escape, and every
ASCII letter, digit, each of `- _ . ~` and each of `@ $ & + =` is copied unchanged;
key `my card.jpeg` gives the path `my%20card.jpeg` and key `a/b?c` gives `a%2Fb%3Fc`. -/
theorem GenerateS3URL_escapes_path_segment (bucket key : Str)
    (hb : bucket ≠ []) (hk : key ≠ []) :
    ∃ image : UInt8 → Str,
      GenerateS3URL bucket key
        = (utf8 "https://" ++ bucket ++ utf8 ".s3.amazonaws.com/" ++ key.flatMap image, none)
      ∧ (∀ c ∈ utf8 "/?#[]!'()*,; ", image c = percentEscape c)
      ∧ (∀ c, isAlnum c ∨ c ∈ utf8 "-_.~" ∨ c ∈ utf8 "@$&+=" → image c = [c])
      ∧ (utf8 "my card.jpeg").flatMap image = utf8 "my%20card.jpeg"
      ∧ (utf8 "a/b?c").flatMap image = utf8 "a%2Fb%3Fc" := by
  refine ⟨escapeByte, ?_, by decide, ?_, by decide, by decide⟩
  · rw [GenerateS3URL_ok bucket key hb hk, PathEscape_eq]
  · intro c h
    have hne : shouldEscape c = false := by
      rcases h with h | h | h
      · exact shouldEscape_of_isAlnum c h
      · have e : utf8 "-_.~" = [45, 95, 46, 126] := by decide
        rw [e] at h
        simp only [List.mem_cons, List.mem_singleton, List.not_mem_nil, or_false] at h
        rcases h with h | h | h | h <;> subst h <;> decide
      · have e : utf8 "@$&+=" = [64, 36, 38, 43, 61] := by decide
        rw [e] at h
        simp only [List.mem_cons, List.mem_singleton, List.not_mem_nil, or_false] at h
        rcases h with h | h | h | h | h <;> subst h <;> decide
    simp [escapeByte, hne]

theorem GenerateS3URL_escapes_path_segment_witness :
    ∃ image : UInt8 → Str,
      GenerateS3URL (utf8 "cards-bucket") (utf8 "my card.jpeg")
        = (utf8 "https://" ++ utf8 "cards-bucket" ++ utf8 ".s3.amazonaws.com/"
            ++ (utf8 "my card.jpeg").flatMap image, none)
      ∧ (∀ c ∈ utf8 "/?#[]!'()*,; ", image c = percentEscape c)
      ∧ (∀ c, isAlnum c ∨ c ∈ utf8 "-_.~" ∨ c ∈ utf8 "@$&+=" → image c = [c])
      ∧ (utf8 "my card.jpeg").flatMap image = utf8 "my%20card.jpeg"
      ∧ (utf8 "a/b?c").flatMap image = utf8 "a%2Fb%3Fc" :=
  GenerateS3URL_escapes_path_segment (utf8 "cards-bucket") (utf8 "my card.jpeg")
    (by decide) (by decide)

/-- C1 as written fails: `@`, `$`, `&`, `+` and `=` are not replaced by their
percent-escapes.  For the key `a@b$c&d+e=f` the path of the URL is the key itself, not
`a%40b%24c%26d%2Be%3Df`. -/
theorem GenerateS3URL_keeps_at_sign :
    GenerateS3URL (utf8 "cards-bucket") (utf8 "a@b$c&d+e=f")
        = (utf8 "https://cards-bucket.s3.amazonaws.com/a@b$c&d+e=f", none)
      ∧ GenerateS3URL (utf8 "cards-bucket") (utf8 "a@b$c&d+e=f")
        ≠ (utf8 "https://cards-bucket.s3.amazonaws.com/a%40b%24c%26d%2Be%3Df", none)
      ∧ percentEscape (ch '@') = utf8 "%40" := by
  decide

/-! ## C2 -/

/-- C2: `GenerateS3URL(bucket, key)` returns an error and the empty string as URL if
`bucket` is empty or `key` is empty, and a (non-empty) URL with no error when both are
non-empty; `GenerateS3URL("", "key")` and `GenerateS3URL("bucket", "")` both fail. -/
theorem GenerateS3URL_fails_iff_empty (bucket key : Str) :
    ((bucket = [] ∨ key = []) → ∃ err, GenerateS3URL bucket key = ([], some err))
    ∧ ((bucket ≠ [] ∧ key ≠ []) → ∃ url, url ≠ [] ∧ GenerateS3URL bucket key = (url, none))
    ∧ (∃ err, GenerateS3URL [] (utf8 "key") = ([], some err))
    ∧ (∃ err, GenerateS3URL (utf8 "bucket") [] = ([], some err)) := by
  refine ⟨?_, ?_, ⟨_, rfl⟩, ⟨_, rfl⟩⟩
  · intro h
    exact ⟨⟨"bucket and key must be provided"⟩, by simp [GenerateS3URL, h]⟩
  · rintro ⟨hb, hk⟩
    refine ⟨_, ?_, GenerateS3URL_ok bucket key hb hk⟩
    have e : utf8 "https://" = [104, 116, 116, 112, 115, 58, 47, 47] := by decide
    simp [e]

theorem GenerateS3URL_fails_iff_empty_witness :
    (∃ err, GenerateS3URL [] (utf8 "key") = ([], some err))
    ∧ (∃ url, url ≠ [] ∧ GenerateS3URL (utf8 "bucket") (utf8 "key") = (url, none)) :=
  ⟨(GenerateS3URL_fails_iff_empty [] (utf8 "key")).1 (Or.inl rfl),
   (GenerateS3URL_fails_iff_empty (utf8 "bucket") (utf8 "key")).2.1 ⟨by decide, by decide⟩⟩

/-! ## Call traces -/

theorem signerCalls_append (a b : List Call) :
    signerCalls (a ++ b) = signerCalls a ++ signerCalls b := by
  induction a with
  | nil => rfl
  | cons c a ih => cases c <;> simp [signerCalls, ih]

theorem add_one_hour (w : World) : w.now.Add (1 * Hour) = oneHourFrom w := by
  simp [Time.Add, oneHourFrom, Hour, Minute, Second, Millisecond, Microsecond, Nanosecond]

/-! ## C3 -/

/-- C3, as the code has it: for a service whose signer is set and whose `BucketName` b
is non-empty, and every non-empty key k, `GetPreSignedURL(k)` invokes the signer exactly
once, with the URL `"https://" + b + ".s3.amazonaws.com/" + PathEscape(k)` and the
expiration instant now + 3600 seconds; it returns the signer's URL when the signer
succeeds, and the signer's error with an empty URL when the signer fails and the service's
logger is set.  For b = `cards-bucket` and k = `abc-123.jpeg` the URL that is signed is
exactly `https://cards-bucket.s3.amazonaws.com/abc-123.jpeg`. -/
theorem GetPreSignedURL_signs_once (svc : CardsTableTemplateService)
    (signer : CloudfrontClient) (k : Str) (w : World)
    (hs : svc.cloudfrontClient = some signer) (hb : svc.BucketName ≠ []) (hk : k ≠ []) :
    signerCalls (GetPreSignedURL svc k w).2.calls
        = signerCalls w.calls ++ [(resourceURL svc.BucketName k, oneHourFrom w)]
    ∧ (∀ signed, signer.Sign (resourceURL svc.BucketName k) (oneHourFrom w) = (signed, none) →
        (GetPreSignedURL svc k w).1 = Outcome.returned (signed, none))
    ∧ (∀ u err, signer.Sign (resourceURL svc.BucketName k) (oneHourFrom w) = (u, some err) →
        svc.logger ≠ none →
        (GetPreSignedURL svc k w).1 = Outcome.returned ([], some err))
    ∧ resourceURL (utf8 "cards-bucket") (utf8 "abc-123.jpeg")
        = utf8 "https://cards-bucket.s3.amazonaws.com/abc-123.jpeg" := by
  have hg := GenerateS3URL_ok svc.BucketName k hb hk
  have hcall : GetPreSignedURL svc k w =
      (match signer.Sign (resourceURL svc.BucketName k) (oneHourFrom w) with
       | (_, some err) =>
         match Printf svc.logger "Unable to sign the request"
             (w.record (Call.Sign (resourceURL svc.BucketName k) (oneHourFrom w))) with
         | (Outcome.panicked, w) => (Outcome.panicked, w)
         | (Outcome.returned _, w) => (Outcome.returned ([], some err), w)
       | (singedURL, none) =>
         (Outcome.returned (singedURL, none),
           w.record (Call.Sign (resourceURL svc.BucketName k) (oneHourFrom w)))) := by
    simp only [GetPreSignedURL, hg, hs, add_one_hour, resourceURL]
  rw [hcall]
  refine ⟨?_, ?_, ?_, by decide⟩
  · rcases signer.Sign (resourceURL svc.BucketName k) (oneHourFrom w) with ⟨u, _ | err⟩
    · simp [World.record, signerCalls_append, signerCalls]
    · cases svc.logger <;>
        simp [Printf, World.record, signerCalls_append, signerCalls]
  · intro signed h
    rw [h]
  · intro u err h hl
    rw [h]
    cases hlog : svc.logger with
    | none => exact absurd hlog hl
    | some l => simp [Printf]

theorem GetPreSignedURL_signs_once_witness :
    signerCalls (GetPreSignedURL signingService (utf8 "abc-123.jpeg") (emptyWorld 0)).2.calls
      = [(utf8 "https://cards-bucket.s3.amazonaws.com/abc-123.jpeg", ⟨3600000000000⟩)]
    ∧ (GetPreSignedURL signingService (utf8 "abc-123.jpeg") (emptyWorld 0)).1
      = Outcome.returned ([], some ⟨"sign: failed"⟩) := by
  have h := GetPreSignedURL_signs_once signingService failingSigner (utf8 "abc-123.jpeg")
    (emptyWorld 0) rfl (by decide) (by decide)
  refine ⟨?_, h.2.2.1 [] ⟨"sign: failed"⟩ rfl (by decide)⟩
  rw [h.1]
  decide

/-- C3 as written fails when the signer fails on a service whose logger is nil: the log
call that precedes `return "", err` panics, so the signer's error is not returned. -/
theorem GetPreSignedURL_nil_logger_panics :
    (GetPreSignedURL unloggedSigningService (utf8 "abc-123.jpeg") (emptyWorld 0)).1
        = Outcome.panicked
    ∧ unloggedSigningService.cloudfrontClient.isSome = true
    ∧ unloggedSigningService.BucketName = utf8 "cards-bucket"
    ∧ failingSigner.Sign (utf8 "https://cards-bucket.s3.amazonaws.com/abc-123.jpeg")
        ⟨3600000000000⟩ = ([], some ⟨"sign: failed"⟩) := by
  decide

/-! ## C5 -/

/-- C5, as the code has it: for every non-empty object key, `GetPreSignedURL` on a
service in which no signer is stored (`BucketName` non-empty) does not return: the call
on the nil signer panics, no collaborator having been called.  There is no readiness
check and no error for an uninitialised service. -/
theorem GetPreSignedURL_without_signer_panics (svc : CardsTableTemplateService)
    (k : Str) (w : World)
    (hs : svc.cloudfrontClient = none) (hb : svc.BucketName ≠ []) (hk : k ≠ []) :
    GetPreSignedURL svc k w = (Outcome.panicked, w) := by
  simp only [GetPreSignedURL, GenerateS3URL_ok svc.BucketName k hb hk, hs]

theorem GetPreSignedURL_without_signer_panics_witness :
    GetPreSignedURL freshService (utf8 "abc-123.jpeg") (emptyWorld 0)
      = (Outcome.panicked, emptyWorld 0) :=
  GetPreSignedURL_without_signer_panics freshService (utf8 "abc-123.jpeg") (emptyWorld 0)
    rfl (by decide) (by decide)

/-- C5 as written fails: on the service of `main` before initialisation, with the key
`abc-123.jpeg`, `GetPreSignedURL` panics instead of returning an error and an empty URL. -/
theorem GetPreSignedURL_fresh_service_not_error :
    (GetPreSignedURL freshService (utf8 "abc-123.jpeg") (emptyWorld 0)).1 = Outcome.panicked
    ∧ freshService.BucketName = utf8 "cards-bucket"
    ∧ ¬ ∃ err, (GetPreSignedURL freshService (utf8 "abc-123.jpeg") (emptyWorld 0)).1
        = Outcome.returned ([], some err) := by
  refine ⟨by decide, by decide, ?_⟩
  rintro ⟨err, h⟩
  have hp : (GetPreSignedURL freshService (utf8 "abc-123.jpeg") (emptyWorld 0)).1
      = Outcome.panicked := by decide
  rw [hp] at h
  cases h

/-! ## C6 -/

/-- C6: for every service state and every public key id,
`AssignPrivatePublicKey("", publicKeyId)` returns an error, leaves the service as it was and
calls no collaborator, so `GetSecretValue` is called zero times; nothing is assumed of the
client, the logger or the context, which may all be unset. -/
theorem AssignPrivatePublicKey_empty_arn (lib : Lib) (svc : CardsTableTemplateService)
    (publicKeyId : Str) (w : World) :
    (∃ err, AssignPrivatePublicKey lib svc [] publicKeyId w
        = (Outcome.returned (some err), svc, w))
    ∧ (AssignPrivatePublicKey lib svc [] publicKeyId w).2.2.calls = w.calls
    ∧ secretCalls (AssignPrivatePublicKey lib svc [] publicKeyId w).2.2.calls
        = secretCalls w.calls := by
  refine ⟨⟨⟨"[ERROR] Secret ARN cannot be empty!"⟩, ?_⟩, ?_, ?_⟩ <;>
    simp [AssignPrivatePublicKey]

/-! ## C4 -/

/-- C4 fails on the code.  On the service `main` builds, with a non-empty secret ARN, a
secret store that returns a well-formed key and the public key id `PK123`,
`AssignCardsService` panics: `AssignPrivatePublicKey` calls `svc.secretMgrClient`, which is
still nil because the clients are assigned only after it returns.  `GetSecretValue` is never
called, and the service is left without key material.  On a service in which the secret
store and the logger are already set, the same call returns no error and stores the parsed
key, the key id, the signer and the arguments. -/
theorem AssignCardsService_fresh_service_panics :
    (AssignCardsService exampleLib freshService (some ⟨1⟩) (some ⟨0⟩) (some tableClient)
        (some exampleS3Client) (some goodSecretClient) (utf8 "arn:valid") (utf8 "PK123")
        (emptyWorld 0)).1 = Outcome.panicked
    ∧ secretCalls (AssignCardsService exampleLib freshService (some ⟨1⟩) (some ⟨0⟩)
        (some tableClient) (some exampleS3Client) (some goodSecretClient) (utf8 "arn:valid")
        (utf8 "PK123") (emptyWorld 0)).2.2.calls = []
    ∧ (AssignCardsService exampleLib freshService (some ⟨1⟩) (some ⟨0⟩) (some tableClient)
        (some exampleS3Client) (some goodSecretClient) (utf8 "arn:valid") (utf8 "PK123")
        (emptyWorld 0)).2.1.privateKey = none
    ∧ (AssignCardsService exampleLib presetService (some ⟨1⟩) (some ⟨0⟩) (some tableClient)
        (some exampleS3Client) (some goodSecretClient) (utf8 "arn:valid") (utf8 "PK123")
        (emptyWorld 0)).1 = Outcome.returned none
    ∧ (AssignCardsService exampleLib presetService (some ⟨1⟩) (some ⟨0⟩) (some tableClient)
        (some exampleS3Client) (some goodSecretClient) (utf8 "arn:valid") (utf8 "PK123")
        (emptyWorld 0)).2.1
      = ⟨some ⟨1⟩, some ⟨0⟩, some tableClient, some exampleS3Client,
          some (exampleLib.NewURLSigner (utf8 "PK123") (some ⟨3233, 17, 2753⟩)),
          some goodSecretClient, utf8 "cards", utf8 "cards-bucket", utf8 "PK123",
          some ⟨3233, 17, 2753⟩⟩ := by
  refine ⟨by decide, ?_, by decide, by decide, ?_⟩
  · rfl
  · rfl

/-- On every service in which no secret store is set, `AssignCardsService` with a non-empty
ARN panics before any collaborator is called, whatever clients it is given. -/
theorem AssignCardsService_nil_secret_store (lib : Lib) (svc : CardsTableTemplateService)
    (ctx : Option Context) (logger : Option Logger) (ddbClient : Option DynamodbClient)
    (s3Client : Option S3Client) (secretMgrClient : Option SecretManagerClient)
    (arn publicKeyId : Str) (w : World)
    (hs : svc.secretMgrClient = none) (ha : arn ≠ []) :
    AssignCardsService lib svc ctx logger ddbClient s3Client secretMgrClient arn publicKeyId w
      = (Outcome.panicked, svc, w) := by
  simp [AssignCardsService, AssignPrivatePublicKey, ha, hs]

/-- On a service in which the secret store and the logger are already set, a well-formed
key makes `AssignCardsService` return no error and store the parsed key, the key id, the
signer built from them and the arguments. -/
theorem AssignCardsService_preset_ready (lib : Lib) (svc : CardsTableTemplateService)
    (ctx : Option Context) (logger : Option Logger) (ddbClient : Option DynamodbClient)
    (s3Client : Option S3Client) (secretMgrClient : Option SecretManagerClient)
    (arn publicKeyId : Str) (w : World)
    (client : SecretManagerClient) (l : Logger) (out : GetSecretValueOutput)
    (secret : Str) (key : RSAPrivateKey)
    (ha : arn ≠ []) (hs : svc.secretMgrClient = some client) (hl : svc.logger = some l)
    (hget : client.GetSecretValue svc.ctx ⟨some arn⟩ = (some out, none))
    (hsec : out.SecretString = some secret) (hne : secret ≠ [])
    (hkey : parsePrivateKey lib secret = (some key, none)) :
    (AssignCardsService lib svc ctx logger ddbClient s3Client secretMgrClient arn publicKeyId
        w).1 = Outcome.returned none
    ∧ (AssignCardsService lib svc ctx logger ddbClient s3Client secretMgrClient arn publicKeyId
        w).2.1
      = ⟨ctx, logger, ddbClient, s3Client, some (lib.NewURLSigner publicKeyId (some key)),
          secretMgrClient, svc.CompanyCardTemplateTable, svc.BucketName, publicKeyId,
          some key⟩ := by
  simp [AssignCardsService, AssignPrivatePublicKey, ha, hs, hl, hget, hsec, hne, hkey, Printf]

/-! ## C7 -/

/-- C7, as the code has it: whenever a startup step fails (the secret ARN is empty,
`GetSecretValue` returns an error, the retrieved secret string is empty, or
`parsePrivateKey` rejects it), neither `AssignPrivatePublicKey` nor `AssignCardsService`
succeeds and both leave every field of the service as it was, so no key material, signer or
client is stored.  Both return the error when the ARN is empty, when `parsePrivateKey`
rejects the secret, or when the service's logger is set; with a nil logger the other two
steps panic on their log call. -/
theorem Assign_failure_leaves_service (lib : Lib) (svc : CardsTableTemplateService)
    (ctx : Option Context) (logger : Option Logger) (ddbClient : Option DynamodbClient)
    (s3Client : Option S3Client) (secretMgrClient : Option SecretManagerClient)
    (arn publicKeyId : Str) (w : World)
    (h : arn = [] ∨ GetSecretValueFails svc arn ∨ SecretIsEmpty svc arn
      ∨ KeyIsRejected lib svc arn) :
    (AssignPrivatePublicKey lib svc arn publicKeyId w).2.1 = svc
    ∧ (AssignCardsService lib svc ctx logger ddbClient s3Client secretMgrClient arn
        publicKeyId w).2.1 = svc
    ∧ (AssignPrivatePublicKey lib svc arn publicKeyId w).1 ≠ Outcome.returned none
    ∧ (AssignCardsService lib svc ctx logger ddbClient s3Client secretMgrClient arn
        publicKeyId w).1 ≠ Outcome.returned none
    ∧ ((arn = [] ∨ KeyIsRejected lib svc arn ∨ svc.logger ≠ none) →
        ∃ err, (AssignPrivatePublicKey lib svc arn publicKeyId w).1
            = Outcome.returned (some err)
          ∧ (AssignCardsService lib svc ctx logger ddbClient s3Client secretMgrClient arn
              publicKeyId w).1 = Outcome.returned (some err)) := by
  rcases h with h | ⟨ha, client, out, err, hs, hget⟩ | ⟨ha, client, out, hs, hget, hsec⟩
      | ⟨ha, client, out, secret, err, hs, hget, hsec, hne, hrej⟩
  · subst h
    simp [AssignCardsService, AssignPrivatePublicKey]
  · cases hl : svc.logger with
    | none =>
      simp [AssignCardsService, AssignPrivatePublicKey, ha, hs, hget, hl, Printf,
        KeyIsRejected]
    | some l =>
      simp [AssignCardsService, AssignPrivatePublicKey, ha, hs, hget, hl, Printf]
  · cases hl : svc.logger with
    | none =>
      simp [AssignCardsService, AssignPrivatePublicKey, ha, hs, hget, hsec, hl, Printf,
        KeyIsRejected]
    | some l =>
      simp [AssignCardsService, AssignPrivatePublicKey, ha, hs, hget, hsec, hl, Printf]
  · simp [AssignCardsService, AssignPrivatePublicKey, ha, hs, hget, hsec, hne, hrej]

theorem Assign_failure_leaves_service_witness :
    (AssignPrivatePublicKey exampleLib failingSecretService (utf8 "arn:valid") (utf8 "PK123")
        (emptyWorld 0)).2.1 = failingSecretService
    ∧ ∃ err, (AssignPrivatePublicKey exampleLib failingSecretService (utf8 "arn:valid")
          (utf8 "PK123") (emptyWorld 0)).1 = Outcome.returned (some err)
        ∧ (AssignCardsService exampleLib failingSecretService (some ⟨1⟩) (some ⟨0⟩)
            (some tableClient) (some exampleS3Client) (some goodSecretClient)
            (utf8 "arn:valid") (utf8 "PK123") (emptyWorld 0)).1
          = Outcome.returned (some err) := by
  have h := Assign_failure_leaves_service exampleLib failingSecretService (some ⟨1⟩) (some ⟨0⟩)
    (some tableClient) (some exampleS3Client) (some goodSecretClient) (utf8 "arn:valid")
    (utf8 "PK123") (emptyWorld 0)
    (Or.inr (Or.inl ⟨by decide, failingSecretClient, none, ⟨"secretsmanager: unavailable"⟩,
      rfl, rfl⟩))
  exact ⟨h.1, h.2.2.2.2 (Or.inr (Or.inr (by decide)))⟩

/-- C7 as written fails when `GetSecretValue` returns an error on a service whose logger
is nil: the log call that precedes `return err` panics, so `AssignPrivatePublicKey`
returns no error. -/
theorem AssignPrivatePublicKey_nil_logger_panics :
    (AssignPrivatePublicKey exampleLib unloggedSecretService (utf8 "arn:valid") (utf8 "PK123")
        (emptyWorld 0)).1 = Outcome.panicked
    ∧ failingSecretClient.GetSecretValue none ⟨some (utf8 "arn:valid")⟩
        = (none, some ⟨"secretsmanager: unavailable"⟩) := by
  refine ⟨by decide, rfl⟩

/-! ## C8 -/

/-- C8: for every input string `parsePrivateKey` returns either a key and no error, or no
key and an error.  It returns nil and an error when the trimmed input has no decodable PEM
block, and when the bytes of the block are not a valid PKCS#1 key (then the parser's
error); otherwise it returns exactly the key parsed from the first block of the trimmed
input. -/
theorem parsePrivateKey_key_xor_error (lib : Lib) (pemPrivateKey : Str) :
    ((∃ key, parsePrivateKey lib pemPrivateKey = (some key, none))
      ∨ (∃ err, parsePrivateKey lib pemPrivateKey = (none, some err)))
    ∧ (lib.pemDecode (lib.TrimSpace pemPrivateKey) = none →
        ∃ err, parsePrivateKey lib pemPrivateKey = (none, some err))
    ∧ (∀ block err, lib.pemDecode (lib.TrimSpace pemPrivateKey) = some block →
        lib.ParsePKCS1PrivateKey block.Bytes = Except.error err →
        parsePrivateKey lib pemPrivateKey = (none, some err))
    ∧ (∀ block key, lib.pemDecode (lib.TrimSpace pemPrivateKey) = some block →
        lib.ParsePKCS1PrivateKey block.Bytes = Except.ok key →
        parsePrivateKey lib pemPrivateKey = (some key, none)) := by
  have hnone : lib.pemDecode (lib.TrimSpace pemPrivateKey) = none →
      parsePrivateKey lib pemPrivateKey
        = (none, some ⟨"failed to parse PEM block containing private key"⟩) := by
    intro hd
    simp only [parsePrivateKey, hd]
  have herr : ∀ block err, lib.pemDecode (lib.TrimSpace pemPrivateKey) = some block →
      lib.ParsePKCS1PrivateKey block.Bytes = Except.error err →
      parsePrivateKey lib pemPrivateKey = (none, some err) := by
    intro block err hd hp
    simp only [parsePrivateKey, hd, hp]
  have hok : ∀ block key, lib.pemDecode (lib.TrimSpace pemPrivateKey) = some block →
      lib.ParsePKCS1PrivateKey block.Bytes = Except.ok key →
      parsePrivateKey lib pemPrivateKey = (some key, none) := by
    intro block key hd hp
    simp only [parsePrivateKey, hd, hp]
  refine ⟨?_, fun hd => ⟨_, hnone hd⟩, herr, hok⟩
  cases hd : lib.pemDecode (lib.TrimSpace pemPrivateKey) with
  | none => exact Or.inr ⟨_, hnone hd⟩
  | some block =>
    cases hp : lib.ParsePKCS1PrivateKey block.Bytes with
    | error err => exact Or.inr ⟨err, herr block err hd hp⟩
    | ok key => exact Or.inl ⟨key, hok block key hd hp⟩

theorem parsePrivateKey_key_xor_error_witness :
    parsePrivateKey exampleLib (utf8 "KEY") = (some ⟨3233, 17, 2753⟩, none)
    ∧ ∃ err, parsePrivateKey exampleLib (utf8 "KE") = (none, some err) :=
  ⟨(parsePrivateKey_key_xor_error exampleLib (utf8 "KEY")).2.2.2
      ⟨utf8 "RSA PRIVATE KEY", utf8 "DER"⟩ ⟨3233, 17, 2753⟩ rfl rfl,
   (parsePrivateKey_key_xor_error exampleLib (utf8 "KE")).2.1 rfl⟩

/-! ## C9 -/

/-- C9 fails on the code.  On an empty metadata table, `PutMetaData` of the record
(`card-1.jpeg`, `Birthday`, `card-1.jpeg`) succeeds and stores the location under the
attribute `CardS3Location`, but `GetMetaData("card-1.jpeg")` returns the record with an
empty `CardS3Location`: the field is read from the attribute `CardType`, which
`PutMetaData` never writes. -/
theorem PutMetaData_GetMetaData_loses_location :
    (PutMetaData metadataService exampleCard (emptyWorld 0)).1 = Outcome.returned none
    ∧ (GetMetaData metadataService exampleCard.CardId
        (PutMetaData metadataService exampleCard (emptyWorld 0)).2).1
      = Outcome.returned (⟨utf8 "card-1.jpeg", utf8 "Birthday", []⟩, none)
    ∧ (GetMetaData metadataService exampleCard.CardId
        (PutMetaData metadataService exampleCard (emptyWorld 0)).2).1
      ≠ Outcome.returned (exampleCard, none)
    ∧ (((PutMetaData metadataService exampleCard (emptyWorld 0)).2.db (utf8 "cards")
          (utf8 "card-1.jpeg")).map
        fun item => (item (utf8 "CardS3Location"), item (utf8 "CardType")))
      = some (some (AttributeValue.S (utf8 "card-1.jpeg")), none) := by
  decide

/-- On the in-memory store, for a record with a non-empty `CardId` under which nothing is
stored yet, `PutMetaData` succeeds and `GetMetaData` then returns the `CardId` and the
`CardName` that were stored and an empty `CardS3Location`, whatever location was stored. -/
theorem PutMetaData_then_GetMetaData (svc : CardsTableTemplateService) (l : Logger)
    (r : CardsTable) (w : World)
    (hc : svc.dynamodbClient = some tableClient) (hl : svc.logger = some l)
    (hid : r.CardId ≠ []) (hnew : w.db svc.CompanyCardTemplateTable r.CardId = none) :
    (PutMetaData svc r w).1 = Outcome.returned none
    ∧ (GetMetaData svc r.CardId (PutMetaData svc r w).2).1
      = Outcome.returned (⟨r.CardId, r.CardName, []⟩, none) := by
  have e1 : utf8 ":CardName" ≠ utf8 ":CardS3Location" := by decide
  have e2 : utf8 "CardId" ≠ utf8 "CardS3Location" := by decide
  have e3 : utf8 "CardId" ≠ utf8 "CardName" := by decide
  have e4 : utf8 "CardName" ≠ utf8 "CardS3Location" := by decide
  have e5 : utf8 "CardType" ≠ utf8 "CardS3Location" := by decide
  have e6 : utf8 "CardType" ≠ utf8 "CardName" := by decide
  have e7 : utf8 "CardType" ≠ utf8 "CardId" := by decide
  constructor
  · simp [PutMetaData, hc, hl, tableClient, World.record, Item.set, emptyItem, hid, hnew,
      applySet, Printf, e1]
  · simp [PutMetaData, GetMetaData, hc, hl, tableClient, World.record, Item.set, emptyItem,
      hid, hnew, applySet, Printf, e1, e2, e3, e4, e5, e6, e7, UnmarshalMap, decodeString,
      dynamodbavCardId, dynamodbavCardName, dynamodbavCardS3Location]

/-! ## C10 -/

/-- C10: for every GET request whose `card-id` header is missing or empty, or whose
`card-id` has no item in the metadata table (`GetItem` succeeds with an empty item),
`handleGetMethod` returns a response with `StatusCode` 500 and an empty body, together with
an error, and the signer is not invoked. -/
theorem handleGetMethod_unrecorded_card (lib : Lib) (svc : Service)
    (request : APIGatewayProxyRequest) (w : World)
    (h : header request (utf8 "card-id") = []
      ∨ NoItemFor svc.SVC (header request (utf8 "card-id")) w) :
    (∃ err, (handleGetMethod lib svc request w).1
        = Outcome.returned (⟨500, RESP_HEADERS, []⟩, some err))
    ∧ (∀ resp err, (handleGetMethod lib svc request w).1 = Outcome.returned (resp, err) →
        resp.StatusCode = 500 ∧ resp.Body = [])
    ∧ signerCalls (handleGetMethod lib svc request w).2.calls = signerCalls w.calls := by
  have key : ∃ err w1, handleGetMethod lib svc request w
      = (Outcome.returned (⟨500, RESP_HEADERS, []⟩, some err), w1)
      ∧ signerCalls w1.calls = signerCalls w.calls := by
    by_cases he : header request (utf8 "card-id") = []
    · exact ⟨⟨"CardId cannot be empty for GetMeta Data for single Card"⟩, w,
        by simp [handleGetMethod, GetMetaData, he], rfl⟩
    · rcases h with h | ⟨client, out, hc, hget, hitem⟩
      · exact absurd h he
      · refine ⟨⟨"bucket and key must be provided"⟩,
          w.record (Call.GetItem svc.SVC.ctx
            ⟨some svc.SVC.CompanyCardTemplateTable,
              emptyItem.set (utf8 "CardId")
                (AttributeValue.S (header request (utf8 "card-id"))), some true⟩), ?_, ?_⟩
        · simp [handleGetMethod, GetMetaData, he, hc, World.record, hget, hitem, UnmarshalMap,
            decodeString, emptyItem, GetPreSignedURL, GenerateS3URL]
        · simp [World.record, signerCalls_append, signerCalls]
  obtain ⟨err, w1, hrun, hcalls⟩ := key
  rw [hrun]
  refine ⟨⟨err, rfl⟩, ?_, hcalls⟩
  intro resp e hre
  simp only [Outcome.returned.injEq, Prod.mk.injEq] at hre
  rw [← hre.1]
  exact ⟨rfl, rfl⟩

theorem handleGetMethod_unrecorded_card_witness :
    (∃ err, (handleGetMethod exampleLib exampleHandler bareRequest (emptyWorld 0)).1
        = Outcome.returned (⟨500, RESP_HEADERS, []⟩, some err))
    ∧ signerCalls (handleGetMethod exampleLib exampleHandler (getRequest (utf8 "no-such-card"))
        (emptyWorld 0)).2.calls = [] :=
  ⟨(handleGetMethod_unrecorded_card exampleLib exampleHandler bareRequest (emptyWorld 0)
      (Or.inl rfl)).1,
   (handleGetMethod_unrecorded_card exampleLib exampleHandler
      (getRequest (utf8 "no-such-card")) (emptyWorld 0)
      (Or.inr ⟨tableClient, ⟨emptyItem⟩, rfl, rfl, rfl⟩)).2.2⟩

/-! ## Evaluations -/

example : PathEscape (utf8 "my card.jpeg") = utf8 "my%20card.jpeg" := by decide
example : PathEscape (utf8 "a/b?c") = utf8 "a%2Fb%3Fc" := by decide
example : PathEscape (utf8 "my/cool+blog&about,stuff") = utf8 "my%2Fcool+blog&about%2Cstuff" := by
  decide
example : GenerateS3URL (utf8 "cards-bucket") (utf8 "a@b")
    = (utf8 "https://cards-bucket.s3.amazonaws.com/a@b", none) := by decide

end ManageS3Contents
